import Mathlib

/-!
# Attendance Tracking & Geofence Reporting Engine — verification development

Shallow embedding of the attendance engine of `src/attendance/attendance.service.ts`
(the variant wired into `attendance.module.ts`):

* `calculateDistance` — the haversine great-circle distance with the
  falsy-coordinate guard (`return Infinity`); JS `Infinity` is modelled as
  `⊤ : EReal`, JS float arithmetic as exact real arithmetic.
* `isValidLocation` — the geofence resolver: first registered location whose
  circle contains the probe point.
* `clockIn` / `clockOut` — the state transitions over a record store, with the
  store threaded explicitly; a thrown `BadRequestException` / `NotFoundException`
  becomes an `Except` error value, and the order of the guards follows the
  statement order of the source.
* `getWeeklyAttendanceStats` — the weekly distinct-user aggregation.
* `getUserAttendance` — the per-date history filter with its `YYYY-MM-DD`
  shape check and `Date` validity check.

Timestamps are integer milliseconds since the Unix epoch.  Calendar-day
arithmetic (`setHours(0,0,0,0)` / `setHours(23,59,59,999)` and day iteration)
is modelled with the server's local time zone taken as UTC, so a calendar day
is an aligned interval of 86 400 000 ms.
-/

/-- A geofence location row (`Location` in `prisma/schema.prisma`). -/
structure Location where
  id : String
  name : String
  latitude : ℝ
  longitude : ℝ
  radius : ℝ

/-- An attendance record row (`Attendance` in `prisma/schema.prisma`).
`clockOut = none` means the record is open. -/
structure Attendance where
  id : Nat
  userId : String
  clockIn : Int
  clockOut : Option Int
  latitude : ℝ
  longitude : ℝ
  locationId : Option String

/-- The value returned by a successful geofence match in `isValidLocation`
(`{ id: location.id, name: location.name }`). -/
structure ValidLocation where
  id : String
  name : String
deriving DecidableEq

/-- `Math.atan2 y x` restricted to the closed right half-plane `x ≥ 0`, the only
region where the source applies it (both arguments are square roots). -/
noncomputable def atan2nn (y x : ℝ) : ℝ :=
  if x = 0 then (if y = 0 then 0 else Real.pi / 2) else Real.arctan (y / x)

/-- `calculateDistance(lat1, lon1, lat2, lon2)` from the attendance service:
haversine distance in metres with Earth radius 6 371 000 m; any falsy (zero)
coordinate short-circuits to `Infinity`, modelled as `⊤`. -/
noncomputable def calculateDistance (lat1 lon1 lat2 lon2 : ℝ) : EReal :=
  if lat1 = 0 ∨ lon1 = 0 ∨ lat2 = 0 ∨ lon2 = 0 then ⊤
  else
    let R : ℝ := 6371000
    let phi1 := lat1 * Real.pi / 180
    let phi2 := lat2 * Real.pi / 180
    let dphi := (lat2 - lat1) * Real.pi / 180
    let dlam := (lon2 - lon1) * Real.pi / 180
    let a := Real.sin (dphi / 2) * Real.sin (dphi / 2) +
      Real.cos phi1 * Real.cos phi2 * Real.sin (dlam / 2) * Real.sin (dlam / 2)
    let c := 2 * atan2nn (Real.sqrt a) (Real.sqrt (1 - a))
    ((R * c : ℝ) : EReal)

/-- A probe point is inside a location's geofence: haversine distance from the
location's centre is at most its radius (`distance <= location.radius`). -/
noncomputable def inRange (lat lon : ℝ) (loc : Location) : Prop :=
  calculateDistance lat lon loc.latitude loc.longitude ≤ (loc.radius : EReal)

/-- `isValidLocation(latitude, longitude)`: walk the registered locations in
enumeration order and return the first whose circle contains the probe. -/
noncomputable def isValidLocation (latitude longitude : ℝ) :
    List Location → Option ValidLocation
  | [] => none
  | location :: rest =>
    if calculateDistance latitude longitude location.latitude location.longitude ≤
        (location.radius : EReal)
    then some ⟨location.id, location.name⟩
    else isValidLocation latitude longitude rest

theorem isValidLocation_nil (lat lon : ℝ) : isValidLocation lat lon [] = none := rfl

theorem calculateDistance_self (lat lon : ℝ) (hlat : lat ≠ 0) (hlon : lon ≠ 0) :
    calculateDistance lat lon lat lon = ((0 : ℝ) : EReal) := by
  unfold calculateDistance atan2nn
  rw [if_neg (by simp [hlat, hlon])]
  simp [sub_self, Real.sqrt_one]

theorem calculateDistance_symm (lat1 lon1 lat2 lon2 : ℝ) :
    calculateDistance lat1 lon1 lat2 lon2 = calculateDistance lat2 lon2 lat1 lon1 := by
  unfold calculateDistance
  by_cases h : lat1 = 0 ∨ lon1 = 0 ∨ lat2 = 0 ∨ lon2 = 0
  · rw [if_pos h, if_pos (by tauto)]
  · rw [if_neg h, if_neg (by tauto)]
    have h1 : Real.sin ((lat2 - lat1) * Real.pi / 180 / 2) =
        -Real.sin ((lat1 - lat2) * Real.pi / 180 / 2) := by
      rw [show (lat2 - lat1) * Real.pi / 180 / 2 = -((lat1 - lat2) * Real.pi / 180 / 2) by ring,
        Real.sin_neg]
    have h2 : Real.sin ((lon2 - lon1) * Real.pi / 180 / 2) =
        -Real.sin ((lon1 - lon2) * Real.pi / 180 / 2) := by
      rw [show (lon2 - lon1) * Real.pi / 180 / 2 = -((lon1 - lon2) * Real.pi / 180 / 2) by ring,
        Real.sin_neg]
    have ha : Real.sin ((lat2 - lat1) * Real.pi / 180 / 2) *
          Real.sin ((lat2 - lat1) * Real.pi / 180 / 2) +
        Real.cos (lat1 * Real.pi / 180) * Real.cos (lat2 * Real.pi / 180) *
          Real.sin ((lon2 - lon1) * Real.pi / 180 / 2) *
          Real.sin ((lon2 - lon1) * Real.pi / 180 / 2) =
        Real.sin ((lat1 - lat2) * Real.pi / 180 / 2) *
          Real.sin ((lat1 - lat2) * Real.pi / 180 / 2) +
        Real.cos (lat2 * Real.pi / 180) * Real.cos (lat1 * Real.pi / 180) *
          Real.sin ((lon1 - lon2) * Real.pi / 180 / 2) *
          Real.sin ((lon1 - lon2) * Real.pi / 180 / 2) := by
      rw [h1, h2]
      ring
    simp only [ha]

/-- The three clock-event failure kinds of the error taxonomy (§7):
`AlreadyClockedIn` and `OutOfZone` are the service's `BadRequestException`s,
`NoOpenRecord` its `NotFoundException` on clock-out. -/
inductive ClockErr where
  | AlreadyClockedIn
  | OutOfZone
  | NoOpenRecord
deriving DecidableEq

/-- The attendance store: the persisted records plus a fresh-id counter
standing for the id generator of the persistence layer. -/
structure EngState where
  nextId : Nat
  records : List Attendance

/-- The empty store. -/
def initState : EngState := ⟨0, []⟩

/-- The predicate of the `findFirst({ where: { userId, clockOut: null } })`
lookup: the record belongs to the user and is still open. -/
def openPred (u : String) (a : Attendance) : Bool :=
  a.userId == u && a.clockOut == none

/-- `prisma.attendance.findFirst({ where: { userId, clockOut: null } })`. -/
def findOpen (u : String) (db : List Attendance) : Option Attendance :=
  db.find? (openPred u)

/-- Number of open records a user has in the store. -/
def openCount (u : String) (st : EngState) : Nat :=
  (st.records.filter (openPred u)).length

/-- `clockIn(userId, latitude, longitude)` of the wired service: look up an
open record, resolve the geofence, throw `OutOfZone` when the position matches
no location, then throw `AlreadyClockedIn` when an open record exists, else
create the record with `clockIn = now` and the matched location's id.
Returns the possibly-updated store together with the outcome. -/
noncomputable def clockIn (locs : List Location) (now : Int) (userId : String)
    (latitude longitude : ℝ) (st : EngState) : EngState × Except ClockErr Attendance :=
  let lastAttendance := findOpen userId st.records
  match isValidLocation latitude longitude locs with
  | none => (st, .error .OutOfZone)
  | some validLocation =>
    if lastAttendance.isSome then (st, .error .AlreadyClockedIn)
    else
      let attendance : Attendance :=
        ⟨st.nextId, userId, now, none, latitude, longitude, some validLocation.id⟩
      (⟨st.nextId + 1, st.records ++ [attendance]⟩, .ok attendance)

/-- `clockOut(userId, latitude, longitude)` of the wired service: look up the
open record, resolve the geofence, throw `OutOfZone` when the position matches
no location, then throw `NoOpenRecord` when no open record exists, else set
`clockOut = now` and overwrite the stored coordinates with the clock-out
position (`update({ where: { id }, data: { clockOut, latitude, longitude } })`). -/
noncomputable def clockOut (locs : List Location) (now : Int) (userId : String)
    (latitude longitude : ℝ) (st : EngState) : EngState × Except ClockErr Attendance :=
  let attendance := findOpen userId st.records
  match isValidLocation latitude longitude locs with
  | none => (st, .error .OutOfZone)
  | some _ =>
    match attendance with
    | none => (st, .error .NoOpenRecord)
    | some a =>
      let updated : Attendance :=
        { a with clockOut := some now, latitude := latitude, longitude := longitude }
      (⟨st.nextId, st.records.map (fun r => if r.id = a.id then updated else r)⟩, .ok updated)

/-- One client call against the engine. -/
inductive Step where
  | cin (userId : String) (latitude longitude : ℝ) (now : Int)
  | cout (userId : String) (latitude longitude : ℝ) (now : Int)

/-- Execute one step, keeping the resulting store (failures leave it as the
operation returned it). -/
noncomputable def execStep (locs : List Location) (st : EngState) : Step → EngState
  | .cin u lat lon t => (clockIn locs t u lat lon st).1
  | .cout u lat lon t => (clockOut locs t u lat lon st).1

/-- Execute a sequence of clock-in/clock-out calls from a starting store. -/
noncomputable def execFrom (locs : List Location) (st : EngState) (steps : List Step) : EngState :=
  steps.foldl (execStep locs) st

/-- Execute a sequence of calls from the empty store. -/
noncomputable def exec (locs : List Location) (steps : List Step) : EngState :=
  execFrom locs initState steps

theorem length_filter_map_le {α : Type} (f : α → α) (p : α → Bool)
    (hf : ∀ r, p (f r) = true → p r = true) (l : List α) :
    ((l.map f).filter p).length ≤ (l.filter p).length := by
  induction l with
  | nil => simp
  | cons x xs ih =>
    simp only [List.map_cons, List.filter_cons]
    by_cases hx : p (f x) = true
    · rw [hf x hx]
      simp only [hx, if_true]
      simpa using ih
    · simp only [eq_false_of_ne_true hx, if_false]
      cases hpx : p x
      · simpa using ih
      · simp only [if_true]
        exact le_trans ih (Nat.le_succ _)

theorem openPred_clockOut_update (u : String) (now : Int) (lat lon : ℝ) (a : Attendance)
    (r : Attendance) :
    openPred u (if r.id = a.id then
      { a with clockOut := some now, latitude := lat, longitude := lon } else r) = true →
    openPred u r = true := by
  by_cases hid : r.id = a.id
  · rw [if_pos hid]
    intro hcontra
    simp [openPred] at hcontra
  · rw [if_neg hid]
    exact id

theorem openCount_clockIn_le (locs : List Location) (now : Int) (u0 : String) (lat lon : ℝ)
    (st : EngState) (u : String) (h : openCount u st ≤ 1) :
    openCount u (clockIn locs now u0 lat lon st).1 ≤ 1 := by
  simp only [clockIn]
  cases hv : isValidLocation lat lon locs with
  | none => simpa using h
  | some v =>
    by_cases ho : (findOpen u0 st.records).isSome
    · simp only [ho, if_true]
      exact h
    · simp only [eq_false_of_ne_true ho, if_false]
      show ((st.records ++
        [(⟨st.nextId, u0, now, none, lat, lon, some v.id⟩ : Attendance)]).filter
          (openPred u)).length ≤ 1
      rw [List.filter_append, List.length_append]
      by_cases huu : u0 = u
      · subst huu
        have hnone : findOpen u0 st.records = none := by
          cases hfo : findOpen u0 st.records
          · rfl
          · rw [hfo] at ho
            simp at ho
        have hnil : st.records.filter (openPred u0) = [] := by
          rw [List.filter_eq_nil_iff]
          intro a ha
          exact List.find?_eq_none.mp hnone a ha
        rw [hnil]
        simp [openPred]
      · have hrec : openPred u ⟨st.nextId, u0, now, none, lat, lon, some v.id⟩ = false := by
          simp [openPred]
          intro hcontra
          exact absurd hcontra huu
        simp only [List.filter_cons, hrec, if_false, List.filter_nil, List.length_nil,
          Nat.add_zero]
        exact h

theorem openCount_clockOut_le (locs : List Location) (now : Int) (u0 : String) (lat lon : ℝ)
    (st : EngState) (u : String) (h : openCount u st ≤ 1) :
    openCount u (clockOut locs now u0 lat lon st).1 ≤ 1 := by
  simp only [clockOut]
  cases hv : isValidLocation lat lon locs with
  | none => simpa using h
  | some v =>
    cases hfo : findOpen u0 st.records with
    | none => simpa using h
    | some a =>
      unfold openCount
      refine le_trans ?_ h
      exact length_filter_map_le _ _ (openPred_clockOut_update u now lat lon a) st.records

theorem inv_execFrom (locs : List Location) (steps : List Step) (st : EngState)
    (h : ∀ u, openCount u st ≤ 1) : ∀ u, openCount u (execFrom locs st steps) ≤ 1 := by
  induction steps generalizing st with
  | nil => exact h
  | cons s rest ih =>
    intro u
    simp only [execFrom, List.foldl_cons]
    have hstep : ∀ u, openCount u (execStep locs st s) ≤ 1 := by
      intro u
      cases s with
      | cin u0 lat lon t => exact openCount_clockIn_le locs t u0 lat lon st u (h u)
      | cout u0 lat lon t => exact openCount_clockOut_le locs t u0 lat lon st u (h u)
    exact ih (execStep locs st s) hstep u

theorem isValidLocation_cons (lat lon : ℝ) (loc : Location) (rest : List Location) :
    isValidLocation lat lon (loc :: rest) =
      if calculateDistance lat lon loc.latitude loc.longitude ≤ (loc.radius : EReal)
      then some ⟨loc.id, loc.name⟩
      else isValidLocation lat lon rest := by
  simp only [isValidLocation]

theorem isValidLocation_eq_none_iff (lat lon : ℝ) (locs : List Location) :
    isValidLocation lat lon locs = none ↔ ∀ loc ∈ locs, ¬ inRange lat lon loc := by
  induction locs with
  | nil => simp [isValidLocation]
  | cons loc rest ih =>
    rw [isValidLocation_cons]
    by_cases hr : calculateDistance lat lon loc.latitude loc.longitude ≤ (loc.radius : EReal)
    · rw [if_pos hr]
      have hr' : inRange lat lon loc := hr
      simp [hr']
    · rw [if_neg hr]
      have hr' : ¬ inRange lat lon loc := hr
      simp [hr', ih]

theorem isValidLocation_some_first (lat lon : ℝ) (locs : List Location) (m : ValidLocation)
    (h : isValidLocation lat lon locs = some m) :
    ∃ pre loc post, locs = pre ++ loc :: post ∧ inRange lat lon loc ∧
      (∀ l ∈ pre, ¬ inRange lat lon l) ∧ m = ⟨loc.id, loc.name⟩ := by
  induction locs with
  | nil => simp [isValidLocation] at h
  | cons loc rest ih =>
    rw [isValidLocation_cons] at h
    by_cases hr : calculateDistance lat lon loc.latitude loc.longitude ≤ (loc.radius : EReal)
    · rw [if_pos hr] at h
      refine ⟨[], loc, rest, rfl, hr, by simp, ?_⟩
      exact (Option.some.inj h).symm
    · rw [if_neg hr] at h
      have hr' : ¬ inRange lat lon loc := hr
      obtain ⟨pre, l, post, heq, hl, hpre, hm⟩ := ih h
      refine ⟨loc :: pre, l, post, by rw [heq]; rfl, hl, ?_, hm⟩
      intro l' hl'
      rcases List.mem_cons.mp hl' with h1 | h2
      · rwa [h1]
      · exact hpre l' h2

theorem not_top_le_coe (r : ℝ) : ¬ ((⊤ : EReal) ≤ (r : EReal)) := by
  intro h
  exact EReal.coe_ne_top r (top_le_iff.mp h)

theorem calculateDistance_falsy (lat1 lon1 lat2 lon2 : ℝ)
    (h : lat1 = 0 ∨ lon1 = 0 ∨ lat2 = 0 ∨ lon2 = 0) :
    calculateDistance lat1 lon1 lat2 lon2 = ⊤ := by
  unfold calculateDistance
  rw [if_pos h]

theorem not_inRange_of_falsy_probe (lat lon : ℝ) (loc : Location) (h : lat = 0 ∨ lon = 0) :
    ¬ inRange lat lon loc := by
  intro hr
  rw [inRange, calculateDistance_falsy _ _ _ _ (by tauto)] at hr
  exact not_top_le_coe loc.radius hr

theorem not_inRange_of_falsy_center (lat lon : ℝ) (loc : Location)
    (h : loc.latitude = 0 ∨ loc.longitude = 0) : ¬ inRange lat lon loc := by
  intro hr
  rw [inRange, calculateDistance_falsy _ _ _ _ (by tauto)] at hr
  exact not_top_le_coe loc.radius hr

theorem clockIn_of_no_geofence (locs : List Location) (now : Int) (u : String) (lat lon : ℝ)
    (st : EngState) (h : isValidLocation lat lon locs = none) :
    clockIn locs now u lat lon st = (st, .error .OutOfZone) := by
  simp only [clockIn, h]

theorem clockOut_of_no_geofence (locs : List Location) (now : Int) (u : String) (lat lon : ℝ)
    (st : EngState) (h : isValidLocation lat lon locs = none) :
    clockOut locs now u lat lon st = (st, .error .OutOfZone) := by
  simp only [clockOut, h]

/-- Sample location for concrete evaluations: centre (1, 1), radius 100 m. -/
noncomputable def hq : Location := ⟨"L1", "HQ", 1, 1, 100⟩

/-- Sample open attendance record of user `u`. -/
noncomputable def recOpen : Attendance := ⟨0, "u", 0, none, 1, 1, some "L1"⟩

/-- Store holding exactly the open record `recOpen`. -/
noncomputable def stOpen : EngState := ⟨1, [recOpen]⟩

theorem dist_hq_le : calculateDistance 1 1 hq.latitude hq.longitude ≤ (hq.radius : EReal) := by
  show calculateDistance 1 1 1 1 ≤ ((100 : ℝ) : EReal)
  rw [calculateDistance_self 1 1 one_ne_zero one_ne_zero]
  exact EReal.coe_le_coe_iff.mpr (by norm_num)

theorem isValidLocation_hq : isValidLocation 1 1 [hq] = some ⟨"L1", "HQ"⟩ := by
  rw [isValidLocation_cons, if_pos dist_hq_le]
  rfl

theorem findOpen_stOpen : findOpen "u" stOpen.records = some recOpen := by
  simp [findOpen, stOpen, recOpen, openPred]

theorem findOpen_stOpen_isSome : (findOpen "u" stOpen.records).isSome = true := by
  rw [findOpen_stOpen]
  rfl

/-- C1: open-record exclusivity (Invariant I1).  Along any sequential execution
of `clockIn` / `clockOut` calls starting from the empty store, every user has at
most one open attendance record at every point: `clockIn` refuses to create a
record while an open one exists, and `clockOut` only closes records. -/
theorem clockEngine_open_record_exclusivity (locs : List Location) (steps : List Step)
    (u : String) : openCount u (exec locs steps) ≤ 1 := by
  have hinit : ∀ u, openCount u initState ≤ 1 := by
    intro u
    simp [openCount, initState]
  exact inv_execFrom locs steps initState hinit u

/-- C2: `isValidLocation` returns exactly the first registered location, in
registry enumeration order, whose haversine distance from the probe is at most
its radius; it returns `none` when no location qualifies; and a probe with a
falsy (zero) latitude or longitude is infinitely far and never matches. -/
theorem geofence_first_match_spec (lat lon : ℝ) (locs : List Location) :
    (isValidLocation lat lon locs = none ↔ ∀ loc ∈ locs, ¬ inRange lat lon loc)
  ∧ (∀ m, isValidLocation lat lon locs = some m →
      ∃ pre loc post, locs = pre ++ loc :: post ∧ inRange lat lon loc ∧
        (∀ l ∈ pre, ¬ inRange lat lon l) ∧ m = ⟨loc.id, loc.name⟩)
  ∧ ((lat = 0 ∨ lon = 0) → isValidLocation lat lon locs = none) := by
  refine ⟨isValidLocation_eq_none_iff lat lon locs,
    fun m h => isValidLocation_some_first lat lon locs m h, fun h => ?_⟩
  rw [isValidLocation_eq_none_iff]
  intro loc _
  exact not_inRange_of_falsy_probe lat lon loc h

theorem geofence_first_match_spec_witness : isValidLocation 0 5 [hq] = none :=
  (geofence_first_match_spec 0 5 [hq]).2.2 (Or.inl rfl)

/-- C3: whenever the reported position lies inside no registered geofence,
`clockIn` fails with `OutOfZone` and leaves the store unchanged — whatever the
user's open-record state, since the out-of-zone guard throws before the
already-clocked-in guard. -/
theorem clockIn_outOfZone_of_no_geofence (locs : List Location) (now : Int) (u : String)
    (lat lon : ℝ) (st : EngState) (h : ∀ loc ∈ locs, ¬ inRange lat lon loc) :
    clockIn locs now u lat lon st = (st, .error .OutOfZone) :=
  clockIn_of_no_geofence locs now u lat lon st ((isValidLocation_eq_none_iff lat lon locs).mpr h)

theorem clockIn_outOfZone_of_no_geofence_witness :
    clockIn [] 7 "u" 1 1 stOpen = (stOpen, .error .OutOfZone) ∧
    findOpen "u" stOpen.records = some recOpen :=
  ⟨clockIn_outOfZone_of_no_geofence [] 7 "u" 1 1 stOpen (by simp), findOpen_stOpen⟩

/-- C4 as stated is false: with an open record and an out-of-zone position,
the wired `clockIn` throws `OutOfZone`, not `AlreadyClockedIn` — the geofence
guard runs first.  Concrete input: user "u" with an open record, no registered
locations. -/
theorem clockIn_order_counterexample :
    (clockIn [] 7 "u" 1 1 stOpen).2 = .error .OutOfZone ∧
    findOpen "u" stOpen.records = some recOpen ∧
    (Except.error ClockErr.OutOfZone : Except ClockErr Attendance) ≠
      .error .AlreadyClockedIn := by
  refine ⟨?_, findOpen_stOpen, by simp⟩
  rw [clockIn_of_no_geofence [] 7 "u" 1 1 stOpen (isValidLocation_nil 1 1)]

/-- C4 amended: `clockIn` evaluates the geofence check before the open-record
check; for a user who already has an open record and reports a position inside
some geofence, it fails with `AlreadyClockedIn` and the store — in particular
the existing open record — is unchanged. -/
theorem clockIn_alreadyClockedIn_in_zone (locs : List Location) (now : Int) (u : String)
    (lat lon : ℝ) (st : EngState) (v : ValidLocation)
    (hv : isValidLocation lat lon locs = some v)
    (ho : (findOpen u st.records).isSome = true) :
    clockIn locs now u lat lon st = (st, .error .AlreadyClockedIn) := by
  simp only [clockIn, hv, ho, if_true]

theorem clockIn_alreadyClockedIn_in_zone_witness :
    clockIn [hq] 7 "u" 1 1 stOpen = (stOpen, .error .AlreadyClockedIn) :=
  clockIn_alreadyClockedIn_in_zone [hq] 7 "u" 1 1 stOpen ⟨"L1", "HQ"⟩
    isValidLocation_hq findOpen_stOpen_isSome

theorem mem_eq_of_length_le_one {α : Type} {l : List α} (h : l.length ≤ 1) {x y : α}
    (hx : x ∈ l) (hy : y ∈ l) : x = y := by
  cases l with
  | nil => cases hx
  | cons z rest =>
    cases rest with
    | nil =>
      rw [List.mem_singleton] at hx hy
      rw [hx, hy]
    | cons w r2 => simp at h

/-- C5 as stated is false: for a user with no open record whose position is
inside no geofence, the wired `clockOut` throws `OutOfZone`, not
`NoOpenRecord` — the geofence guard throws first.  Concrete input: empty
store, no registered locations. -/
theorem clockOut_noOpenRecord_counterexample :
    clockOut [] 7 "u" 1 1 initState = (initState, .error .OutOfZone) ∧
    findOpen "u" initState.records = none ∧
    (Except.error ClockErr.OutOfZone : Except ClockErr Attendance) ≠
      .error .NoOpenRecord := by
  refine ⟨?_, rfl, by simp⟩
  rw [clockOut_of_no_geofence [] 7 "u" 1 1 initState (isValidLocation_nil 1 1)]

/-- C5 amended: for a user with an open record and a position inside some
geofence, `clockOut` succeeds: it closes that record with `clockOut = now`
(hence `clockOut ≥ clockIn` whenever the call time is not before the record's
clock-in time — Invariant I2), overwrites the record's stored coordinates with
the clock-out position, and leaves the user with zero open records; for a user
with no open record whose position is inside some geofence, `clockOut` fails
with `NoOpenRecord` (an out-of-zone position fails with `OutOfZone` instead,
even when no open record exists). -/
theorem clockOut_success_and_noOpenRecord (locs : List Location) (now : Int) (u : String)
    (lat lon : ℝ) (st : EngState) :
    (∀ v a, isValidLocation lat lon locs = some v → findOpen u st.records = some a →
      openCount u st ≤ 1 → a.clockIn ≤ now →
      (clockOut locs now u lat lon st).2 =
        .ok { a with clockOut := some now, latitude := lat, longitude := lon } ∧
      (Attendance.clockOut { a with clockOut := some now, latitude := lat, longitude := lon })
        = some now ∧
      (Attendance.clockIn { a with clockOut := some now, latitude := lat, longitude := lon })
        ≤ now ∧
      { a with clockOut := some now, latitude := lat, longitude := lon } ∈
        (clockOut locs now u lat lon st).1.records ∧
      openCount u (clockOut locs now u lat lon st).1 = 0)
  ∧ (∀ v, isValidLocation lat lon locs = some v → findOpen u st.records = none →
      clockOut locs now u lat lon st = (st, .error .NoOpenRecord)) := by
  constructor
  · intro v a hv hfo hcount hclk
    have hmem : a ∈ st.records := List.mem_of_find?_eq_some hfo
    have hpa : openPred u a = true := List.find?_some hfo
    have heval : clockOut locs now u lat lon st =
        (⟨st.nextId, st.records.map (fun r => if r.id = a.id then
            { a with clockOut := some now, latitude := lat, longitude := lon } else r)⟩,
         .ok { a with clockOut := some now, latitude := lat, longitude := lon }) := by
      simp only [clockOut, hv, hfo]
    refine ⟨by rw [heval], rfl, hclk, ?_, ?_⟩
    · rw [heval]
      exact List.mem_map.mpr ⟨a, hmem, by rw [if_pos rfl]⟩
    · rw [heval]
      unfold openCount
      simp only []
      rw [List.length_eq_zero, List.filter_eq_nil_iff]
      intro r' hr'
      obtain ⟨r, hrmem, hrw⟩ := List.mem_map.mp hr'
      by_cases hid : r.id = a.id
      · rw [if_pos hid] at hrw
        rw [← hrw]
        simp [openPred]
      · rw [if_neg hid] at hrw
        rw [← hrw]
        intro hpr
        have hfilter : r ∈ st.records.filter (openPred u) := List.mem_filter.mpr ⟨hrmem, hpr⟩
        have hafilter : a ∈ st.records.filter (openPred u) := List.mem_filter.mpr ⟨hmem, hpa⟩
        exact hid (congrArg Attendance.id (mem_eq_of_length_le_one hcount hfilter hafilter))
  · intro v hv hfo
    simp only [clockOut, hv, hfo]

theorem clockOut_success_and_noOpenRecord_witness :
    (clockOut [hq] 7 "u" 1 1 stOpen).2 =
      .ok { recOpen with clockOut := some 7, latitude := 1, longitude := 1 } ∧
    openCount "u" (clockOut [hq] 7 "u" 1 1 stOpen).1 = 0 ∧
    clockOut [hq] 7 "v" 1 1 stOpen = (stOpen, .error .NoOpenRecord) := by
  have h := clockOut_success_and_noOpenRecord [hq] 7 "u" 1 1 stOpen
  have hs := h.1 ⟨"L1", "HQ"⟩ recOpen isValidLocation_hq findOpen_stOpen
    (by decide) (by decide)
  have h2 := clockOut_success_and_noOpenRecord [hq] 7 "v" 1 1 stOpen
  exact ⟨hs.1, hs.2.2.2.2, h2.2 ⟨"L1", "HQ"⟩ isValidLocation_hq (by rfl)⟩

/-- C6: atomicity on failure — whenever `clockIn` or `clockOut` returns one of
the failure kinds, the store it returns is exactly the input store: no record
is created and no field of any existing record is modified. -/
theorem clock_failures_leave_store_unchanged (locs : List Location) (now : Int) (u : String)
    (lat lon : ℝ) (st : EngState) (e : ClockErr) :
    ((clockIn locs now u lat lon st).2 = .error e → (clockIn locs now u lat lon st).1 = st)
  ∧ ((clockOut locs now u lat lon st).2 = .error e → (clockOut locs now u lat lon st).1 = st) := by
  constructor
  · intro h
    cases hv : isValidLocation lat lon locs with
    | none => simp only [clockIn, hv]
    | some v =>
      by_cases ho : (findOpen u st.records).isSome
      · simp only [clockIn, hv, ho, if_true]
      · simp only [clockIn, hv, eq_false_of_ne_true ho, if_false] at h
        cases h
  · intro h
    cases hv : isValidLocation lat lon locs with
    | none => simp only [clockOut, hv]
    | some v =>
      cases hfo : findOpen u st.records with
      | none => simp only [clockOut, hv, hfo]
      | some a =>
        simp only [clockOut, hv, hfo] at h
        cases h

theorem clock_failures_leave_store_unchanged_witness :
    (clockIn [] 7 "u" 1 1 stOpen).1 = stOpen ∧ (clockOut [] 7 "u" 1 1 initState).1 = initState := by
  constructor
  · exact (clock_failures_leave_store_unchanged [] 7 "u" 1 1 stOpen .OutOfZone).1
      (by rw [clockIn_of_no_geofence [] 7 "u" 1 1 stOpen (isValidLocation_nil 1 1)])
  · exact (clock_failures_leave_store_unchanged [] 7 "u" 1 1 initState .OutOfZone).2
      (by rw [clockOut_of_no_geofence [] 7 "u" 1 1 initState (isValidLocation_nil 1 1)])

/-- C9 as stated is false at points with a falsy coordinate: the guard makes
`calculateDistance(A, A)` return `Infinity`, not `0`, when a latitude is `0`.
Concrete input: A = (0, 1). -/
theorem haversine_self_counterexample :
    calculateDistance 0 1 0 1 = (⊤ : EReal) ∧ (⊤ : EReal) ≠ ((0 : ℝ) : EReal) :=
  ⟨calculateDistance_falsy 0 1 0 1 (Or.inl rfl), Ne.symm (EReal.coe_ne_top 0)⟩

/-- C9 amended: the haversine distance is symmetric for all coordinate pairs,
and `distance(A, A) = 0` for every point A whose latitude and longitude are
both nonzero (a falsy coordinate yields `Infinity` instead). -/
theorem haversine_symm_and_self_zero :
    (∀ lat1 lon1 lat2 lon2 : ℝ,
      calculateDistance lat1 lon1 lat2 lon2 = calculateDistance lat2 lon2 lat1 lon1)
  ∧ (∀ lat lon : ℝ, lat ≠ 0 → lon ≠ 0 →
      calculateDistance lat lon lat lon = ((0 : ℝ) : EReal)) :=
  ⟨calculateDistance_symm, calculateDistance_self⟩

theorem haversine_symm_and_self_zero_witness :
    calculateDistance 1 2 3 4 = calculateDistance 3 4 1 2 ∧
    calculateDistance 1 1 1 1 = ((0 : ℝ) : EReal) :=
  ⟨haversine_symm_and_self_zero.1 1 2 3 4,
   haversine_symm_and_self_zero.2 1 1 one_ne_zero one_ne_zero⟩

/-- C10 (implicit): a registered location whose centre latitude or longitude is
falsy (zero) is itself treated as infinitely far — `isValidLocation` can only
ever return a location with nonzero centre coordinates, and when every
registered location has a falsy centre coordinate a clock-in attempt fails with
`OutOfZone` from any probe position. -/
theorem falsy_center_never_matches (lat lon : ℝ) (locs : List Location) :
    (∀ m, isValidLocation lat lon locs = some m →
      ∃ loc, loc ∈ locs ∧ m = ⟨loc.id, loc.name⟩ ∧ inRange lat lon loc ∧
        loc.latitude ≠ 0 ∧ loc.longitude ≠ 0)
  ∧ ((∀ loc ∈ locs, loc.latitude = 0 ∨ loc.longitude = 0) →
      ∀ st now u, clockIn locs now u lat lon st = (st, .error .OutOfZone)) := by
  constructor
  · intro m h
    obtain ⟨pre, loc, post, heq, hr, _, hm⟩ := isValidLocation_some_first lat lon locs m h
    have hmem : loc ∈ locs := by
      rw [heq]
      exact List.mem_append_right pre (List.mem_cons_self loc post)
    refine ⟨loc, hmem, hm, hr, ?_, ?_⟩
    · intro h0
      exact not_inRange_of_falsy_center lat lon loc (Or.inl h0) hr
    · intro h0
      exact not_inRange_of_falsy_center lat lon loc (Or.inr h0) hr
  · intro hall st now u
    apply clockIn_of_no_geofence
    rw [isValidLocation_eq_none_iff]
    intro loc hloc
    exact not_inRange_of_falsy_center lat lon loc (hall loc hloc)

theorem falsy_center_never_matches_witness :
    clockIn [⟨"L2", "Origin", 0, 5, 100⟩] 7 "u" 1 1 initState =
      (initState, .error .OutOfZone) :=
  (falsy_center_never_matches 1 1 [⟨"L2", "Origin", 0, 5, 100⟩]).2
    (by intro loc hloc; rw [List.mem_singleton] at hloc; rw [hloc]; exact Or.inl rfl)
    initState 7 "u"

/-- Milliseconds in one calendar day. -/
def msPerDay : Int := 86400000

/-- First millisecond of calendar day `d` (`setHours(0, 0, 0, 0)` under the
UTC local-time model; `d` is a day index since the epoch). -/
def dayStartMs (d : Int) : Int := d * msPerDay

/-- Last millisecond of calendar day `d` (`setHours(23, 59, 59, 999)`). -/
def dayEndMs (d : Int) : Int := d * msPerDay + (msPerDay - 1)

/-- A clock-in timestamp falls inside calendar day `d`
(`clockInDate >= dayStart && clockInDate <= dayEnd`). -/
def inDay (d : Int) (t : Int) : Bool :=
  decide (dayStartMs d ≤ t) && decide (t ≤ dayEndMs d)

/-- One element of `dailyData` in `getWeeklyAttendanceStats` (`DayData`);
`date` is the calendar-day index that the source formats for display. -/
structure DayData where
  date : Int
  total : Nat
  completed : Nat
  inProgress : Nat

/-- Result of `getWeeklyAttendanceStats` (chart labels/arrays are the same
numbers and are omitted). -/
structure WeeklyStats where
  totalWeek : Nat
  completedWeek : Nat
  inProgressWeek : Nat
  dailyData : List DayData

/-- The `weeklyAttendances` query: records whose `clockIn` lies between the
start of the day six days before today and the end of today. -/
def weeklyAttendances (todayDay : Int) (records : List Attendance) : List Attendance :=
  records.filter (fun a =>
    decide (dayStartMs (todayDay - 6) ≤ a.clockIn) && decide (a.clockIn ≤ dayEndMs todayDay))

/-- Loop body of `getWeeklyAttendanceStats` for day `i` of the window
(`date = today - (6 - i)`): distinct users having a record that day
(`uniqueUserIds`), distinct users with at least one completed record that day
(`usersWithCompletedAttendance`), and the difference as `inProgress`. -/
def dayStats (todayDay : Int) (records : List Attendance) (i : Nat) : DayData :=
  let d := todayDay - (6 - (i : Int))
  let dailyAttendances := (weeklyAttendances todayDay records).filter
    (fun a => inDay d a.clockIn)
  let uniqueCount := (dailyAttendances.map (fun a => a.userId)).dedup.length
  let completedUniqueCount :=
    ((dailyAttendances.filter (fun a => a.clockOut.isSome)).map
      (fun a => a.userId)).dedup.length
  ⟨d, uniqueCount, completedUniqueCount, uniqueCount - completedUniqueCount⟩

/-- `getWeeklyAttendanceStats()`: for each of the 7 calendar days ending
`todayDay`, the number of distinct users having a record that day, split into
users with at least one completed record that day and the rest; the week
summary counts distinct users over the whole window the same way. -/
def getWeeklyAttendanceStats (todayDay : Int) (records : List Attendance) : WeeklyStats :=
  let weekly := weeklyAttendances todayDay records
  let days := (List.range 7).map (dayStats todayDay records)
  let totalUniqueUsers := (weekly.map (fun a => a.userId)).dedup.length
  let completedUniqueUsersCount :=
    ((weekly.filter (fun a => a.clockOut.isSome)).map (fun a => a.userId)).dedup.length
  ⟨totalUniqueUsers, completedUniqueUsersCount,
    totalUniqueUsers - completedUniqueUsersCount, days⟩

/-- The character is an ASCII digit (`\d` of the source's date regex). -/
def isDigit (c : Char) : Bool :=
  decide (48 ≤ c.toNat) && decide (c.toNat ≤ 57)

/-- The `^\d\x7b4\x7d-\d\x7b2\x7d-\d\x7b2\x7d$` shape test on a date string. -/
def dateShapeOk (s : String) : Bool :=
  match s.data with
  | [y1, y2, y3, y4, h1, m1, m2, h2, d1, d2] =>
    isDigit y1 && isDigit y2 && isDigit y3 && isDigit y4 && (h1 == '-') &&
    isDigit m1 && isDigit m2 && (h2 == '-') && isDigit d1 && isDigit d2
  | _ => false

/-- Numeric value of an ASCII digit character. -/
def digitVal (c : Char) : Nat := c.toNat - 48

/-- Year, month and day fields of a `YYYY-MM-DD` string. -/
def parseYMD (s : String) : Nat × Nat × Nat :=
  match s.data with
  | [y1, y2, y3, y4, _, m1, m2, _, d1, d2] =>
    (1000 * digitVal y1 + 100 * digitVal y2 + 10 * digitVal y3 + digitVal y4,
     10 * digitVal m1 + digitVal m2, 10 * digitVal d1 + digitVal d2)
  | _ => (0, 0, 0)

/-- Gregorian leap-year rule. -/
def isLeapYear (y : Nat) : Bool :=
  decide (y % 4 = 0) && (decide (y % 100 ≠ 0) || decide (y % 400 = 0))

/-- Number of days in a month of a given year. -/
def daysInMonth (y m : Nat) : Nat :=
  if m = 2 then (if isLeapYear y then 29 else 28)
  else if m = 4 ∨ m = 6 ∨ m = 9 ∨ m = 11 then 30
  else 31

/-- Modelled from the runtime: ECMAScript `new Date("YYYY-MM-DDT00:00:00.000Z")`
yields a valid date exactly when the month and day fields are in range for the
Gregorian calendar (otherwise `getTime()` is `NaN` and the service rejects). -/
def validYMD (y m d : Nat) : Bool :=
  decide (1 ≤ m) && decide (m ≤ 12) && decide (1 ≤ d) && decide (d ≤ daysInMonth y m)

/-- Modelled from the runtime: days since the Unix epoch of a Gregorian civil
date (the value ECMAScript assigns to `YYYY-MM-DDT00:00:00.000Z`), via the
standard days-from-civil computation. -/
def daysFromCivil (y m d : Int) : Int :=
  let yAdj := if m ≤ 2 then y - 1 else y
  let era := (if 0 ≤ yAdj then yAdj else yAdj - 399) / 400
  let yoe := yAdj - era * 400
  let doy := (153 * (if 2 < m then m - 3 else m + 9) + 2) / 5 + d - 1
  let doe := yoe * 365 + yoe / 4 - yoe / 100 + doy
  era * 146097 + doe - 719468

/-- One user's entry in the `getUserAttendance` response: the user together
with their (possibly date-filtered) attendance records. -/
structure HistoryEntry where
  userId : String
  attendances : List Attendance

/-- The two `BadRequestException`s of `getUserAttendance`: regex mismatch
("Format de date invalide") and invalid calendar date ("Date non valide"). -/
inductive HistErr where
  | invalidFormat
  | invalidDate
deriving DecidableEq

/-- `getUserAttendance(date?)`: with no date, every user's records; with a
date, reject a non-`YYYY-MM-DD` shape, reject an invalid calendar date, else
keep the records whose `clockIn` lies between the day's first and last
millisecond (`setHours(0,0,0,0)` / `setHours(23,59,59,999)`, UTC model). -/
def getUserAttendance (dateArg : Option String) (userIds : List String)
    (db : List Attendance) : Except HistErr (List HistoryEntry) :=
  match dateArg with
  | none => .ok (userIds.map (fun u => ⟨u, db.filter (fun a => a.userId == u)⟩))
  | some date =>
    if dateShapeOk date then
      let ymd := parseYMD date
      if validYMD ymd.1 ymd.2.1 ymd.2.2 then
        let startOfDay := daysFromCivil ymd.1 ymd.2.1 ymd.2.2 * msPerDay
        let endOfDay := startOfDay + (msPerDay - 1)
        .ok (userIds.map (fun u =>
          ⟨u, db.filter (fun a =>
            a.userId == u && decide (startOfDay ≤ a.clockIn) &&
            decide (a.clockIn ≤ endOfDay))⟩))
      else .error .invalidDate
    else .error .invalidFormat

example : daysFromCivil 1970 1 1 = 0 := by decide
example : daysFromCivil 2024 2 29 * msPerDay = 1709164800000 := by decide
example : daysFromCivil 2024 3 1 = daysFromCivil 2024 2 29 + 1 := by decide

theorem filter_and_comm {α : Type} (p q : α → Bool) (l : List α) :
    l.filter (fun a => p a && q a) = l.filter (fun a => q a && p a) :=
  List.filter_congr (fun a _ => Bool.and_comm (p a) (q a))

theorem weekly_day_filter (todayDay d : Int) (records : List Attendance)
    (h1 : todayDay - 6 ≤ d) (h2 : d ≤ todayDay) :
    (weeklyAttendances todayDay records).filter (fun a => inDay d a.clockIn) =
      records.filter (fun a => inDay d a.clockIn) := by
  unfold weeklyAttendances
  rw [List.filter_filter]
  apply List.filter_congr
  intro a _
  cases hd : inDay d a.clockIn
  · simp
  · have hd' := hd
    simp only [inDay, Bool.and_eq_true, decide_eq_true_eq] at hd'
    have hlo : dayStartMs (todayDay - 6) ≤ a.clockIn := by
      refine le_trans ?_ hd'.1
      simp only [dayStartMs, msPerDay]
      omega
    have hhi : a.clockIn ≤ dayEndMs todayDay := by
      refine le_trans hd'.2 ?_
      simp only [dayEndMs, dayStartMs, msPerDay]
      omega
    simp [hlo, hhi, hd]

theorem dailyData_get (todayDay : Int) (records : List Attendance) (i : Nat)
    (h : i < (getWeeklyAttendanceStats todayDay records).dailyData.length) :
    (getWeeklyAttendanceStats todayDay records).dailyData.get ⟨i, h⟩ =
      dayStats todayDay records i := by
  simp [getWeeklyAttendanceStats, List.get_eq_getElem]

/-- C7: `getWeeklyAttendanceStats` returns one entry per calendar day for the
7 days ending today; each day's `total` is the number of distinct users having
at least one record whose `clockIn` falls in that day (a user clocking in twice
contributes once), `completed` is the number of distinct users with at least
one completed record that day (so a user with both a completed and an open
record counts as completed), `inProgress` is their difference, and the
week-level summary counts distinct users over the whole window. -/
theorem weeklyTrend_distinct_users (todayDay : Int) (records : List Attendance) :
    (getWeeklyAttendanceStats todayDay records).dailyData.length = 7
  ∧ (∀ i, ∀ h : i < (getWeeklyAttendanceStats todayDay records).dailyData.length,
      ((getWeeklyAttendanceStats todayDay records).dailyData.get ⟨i, h⟩).date =
          todayDay - 6 + (i : Int)
    ∧ ((getWeeklyAttendanceStats todayDay records).dailyData.get ⟨i, h⟩).total =
        ((records.filter (fun a => inDay (todayDay - 6 + (i : Int)) a.clockIn)).map
          (fun a => a.userId)).toFinset.card
    ∧ ((getWeeklyAttendanceStats todayDay records).dailyData.get ⟨i, h⟩).completed =
        ((records.filter (fun a =>
            inDay (todayDay - 6 + (i : Int)) a.clockIn && a.clockOut.isSome)).map
          (fun a => a.userId)).toFinset.card
    ∧ ((getWeeklyAttendanceStats todayDay records).dailyData.get ⟨i, h⟩).inProgress =
        ((getWeeklyAttendanceStats todayDay records).dailyData.get ⟨i, h⟩).total -
          ((getWeeklyAttendanceStats todayDay records).dailyData.get ⟨i, h⟩).completed)
  ∧ (getWeeklyAttendanceStats todayDay records).totalWeek =
      ((weeklyAttendances todayDay records).map (fun a => a.userId)).toFinset.card := by
  have hlen : (getWeeklyAttendanceStats todayDay records).dailyData.length = 7 := by
    simp [getWeeklyAttendanceStats]
  refine ⟨hlen, ?_, ?_⟩
  · intro i h
    have hi : i < 7 := by
      rw [hlen] at h
      exact h
    have hd : todayDay - (6 - (i : Int)) = todayDay - 6 + (i : Int) := by omega
    have hfilter : (weeklyAttendances todayDay records).filter
        (fun a => inDay (todayDay - 6 + (i : Int)) a.clockIn) =
        records.filter (fun a => inDay (todayDay - 6 + (i : Int)) a.clockIn) := by
      apply weekly_day_filter
      · omega
      · omega
    rw [dailyData_get]
    refine ⟨?_, ?_, ?_, ?_⟩
    · simp only [dayStats]
      omega
    · simp only [dayStats, hd, hfilter, List.card_toFinset]
    · simp only [dayStats, hd, hfilter, List.card_toFinset, List.filter_filter]
      rw [filter_and_comm]
    · simp only [dayStats]
  · simp only [getWeeklyAttendanceStats, List.card_toFinset]

/-- Two same-day clock-ins of one user, used as concrete data for the weekly
aggregation: both fall on day index 6. -/
noncomputable def wrecs : List Attendance :=
  [⟨0, "u", 518400000, none, 1, 1, some "L1"⟩,
   ⟨1, "u", 518400001, none, 1, 1, some "L1"⟩]

theorem wrecs_daily_len : 6 < (getWeeklyAttendanceStats 6 wrecs).dailyData.length := by
  simp [getWeeklyAttendanceStats]

theorem weeklyTrend_distinct_users_witness :
    ((getWeeklyAttendanceStats 6 wrecs).dailyData.get ⟨6, wrecs_daily_len⟩).total =
      ((wrecs.filter (fun a => inDay ((6 : Int) - 6 + ((6 : Nat) : Int)) a.clockIn)).map
        (fun a => a.userId)).toFinset.card ∧
    ((wrecs.filter (fun a => inDay ((6 : Int) - 6 + ((6 : Nat) : Int)) a.clockIn)).map
        (fun a => a.userId)).toFinset.card = 1 :=
  ⟨((weeklyTrend_distinct_users 6 wrecs).2.1 6 wrecs_daily_len).2.1, by decide⟩

/-- C8: `getUserAttendance` rejects every date argument whose shape is not
`YYYY-MM-DD` with the invalid-format error; for a well-shaped, valid date it
returns, per user, exactly the records whose `clockIn` lies within the day's
boundaries `[00:00:00.000, 23:59:59.999]` (UTC local-time model); with no
argument it returns all records; the well-shaped but invalid "2024-13-40" is
also rejected; and the leap-year date "2024-02-29" succeeds with boundary
timestamps 1709164800000–1709251199999 ms. -/
theorem historyForDate_spec (userIds : List String) (db : List Attendance) :
    (∀ s, dateShapeOk s = false →
      getUserAttendance (some s) userIds db = .error .invalidFormat)
  ∧ (∀ s y m d, parseYMD s = (y, m, d) → dateShapeOk s = true → validYMD y m d = true →
      getUserAttendance (some s) userIds db =
        .ok (userIds.map (fun u => ⟨u, db.filter (fun a =>
          a.userId == u && decide (daysFromCivil y m d * msPerDay ≤ a.clockIn) &&
          decide (a.clockIn ≤ daysFromCivil y m d * msPerDay + (msPerDay - 1)))⟩)))
  ∧ (getUserAttendance none userIds db =
      .ok (userIds.map (fun u => ⟨u, db.filter (fun a => a.userId == u)⟩)))
  ∧ (getUserAttendance (some "2024-13-40") userIds db = .error .invalidDate)
  ∧ (getUserAttendance (some "2024-02-29") userIds db =
      .ok (userIds.map (fun u => ⟨u, db.filter (fun a =>
        a.userId == u && decide (1709164800000 ≤ a.clockIn) &&
        decide (a.clockIn ≤ 1709251199999))⟩))) := by
  refine ⟨?_, ?_, rfl, ?_, ?_⟩
  · intro s hs
    simp only [getUserAttendance, hs, Bool.false_eq_true, if_false]
  · intro s y m d hp hs hv
    simp only [getUserAttendance, hs, if_true, hp, hv]
  · simp only [getUserAttendance]
    rw [if_pos (by decide)]
    rw [if_neg (by decide)]
  · simp only [getUserAttendance]
    rw [if_pos (by decide)]
    rw [if_pos (by decide)]
    have h1 : daysFromCivil (parseYMD "2024-02-29").1 (parseYMD "2024-02-29").2.1
        (parseYMD "2024-02-29").2.2 * msPerDay + (msPerDay - 1) = 1709251199999 := by decide
    have h2 : daysFromCivil (parseYMD "2024-02-29").1 (parseYMD "2024-02-29").2.1
        (parseYMD "2024-02-29").2.2 * msPerDay = 1709164800000 := by decide
    simp only [h1, h2]
    have h3 : (1709164800000 : Int) + (msPerDay - 1) = 1709251199999 := by decide
    simp only [h3]

theorem historyForDate_spec_witness :
    getUserAttendance (some "bad-date") ([] : List String) ([] : List Attendance) =
      .error .invalidFormat ∧
    getUserAttendance (some "2024-02-29") ([] : List String) ([] : List Attendance) =
      .ok [] :=
  ⟨(historyForDate_spec [] []).1 "bad-date" (by decide),
   (historyForDate_spec [] []).2.2.2.2⟩
